import Mathlib

/-!
Verification of the MedHealth.ai client session logic.

Shallow embedding of the page component Home (handleUpload, askFollowUp,
handleFileChange and the related JSX guards). The React useState fields
become a record; each handler becomes a transition on a session record; a
network call is modelled by a start event (the handler runs up to and
including issuing the fetch) and a resolve event (the handler resumes with
the provider outcome). The session record additionally instruments what the
claims talk about: how many requests are pending, cumulative network calls
per provider, the prompts sent to the follow-up provider, and the alerts
raised.
-/

namespace MedHealth

/-- Component state of Home: the useState fields file, text, analysis,
question, followUp, loading, uploadComplete. The fields text and analysis
are Option String because a success body with an absent JSON field stores
undefined (modelled as none); their initial useState value is the empty
string. -/
structure AppState where
  file : Option String
  text : Option String
  analysis : Option String
  question : String
  followUp : String
  loading : Bool
  uploadComplete : Bool
deriving DecidableEq

/-- Initial component state. -/
def initApp : AppState :=
  { file := none, text := some "", analysis := some "", question := "",
    followUp := "", loading := false, uploadComplete := false }

/-- Outcome of the upload fetch in handleUpload: the fetch rejected or the
body failed to parse (netFail, both land in the same catch), a non-2xx
status (httpError, res.ok false), or a parsed body with its two optional
fields text and analysis. -/
inductive UploadOutcome where
  | netFail (msg : String)
  | httpError
  | success (text : Option String) (analysis : Option String)
deriving DecidableEq

/-- Outcome of the follow-up fetch in askFollowUp: network failure, non-2xx
status with its error text, or a parsed body whose nested path through
candidates, content, parts and text yields a string or nothing (none when
any link of the optional chain is absent). -/
inductive FollowOutcome where
  | netFail (msg : String)
  | httpError (status : Nat) (body : String)
  | success (pathText : Option String)
deriving DecidableEq

/-- Alerts the two handlers can raise: the catch of handleUpload alerts on a
non-2xx status (uploadHttp, the counterpart of a provider error) or on a
network failure, and the catch of askFollowUp alerts on a missing API key,
a non-2xx status, or a network failure. -/
inductive SessionError where
  | uploadHttp
  | uploadNet (msg : String)
  | apiKeyMissing
  | followHttp (status : Nat) (body : String)
  | followNet (msg : String)
deriving DecidableEq

/-- Prompt construction of askFollowUp: verbatim template interpolation of
the stored text and the question. -/
def buildPrompt (text question : String) : String :=
  "The user uploaded this medicine content:\n" ++ text ++
    "\nNow they ask: " ++ question ++ "\nGive a clear medical answer."

/-- Reply extraction of askFollowUp: the optional-chaining path result with
a falsy-or default, so an absent path or an empty path text both yield the
default string. -/
def extractReply : Option String → String
  | none => "No response received"
  | some t => if t = "" then "No response received" else t

/-- Session: the component state plus instrumentation of the effects the
claims are about. pendingUploads and pendingFollows count issued but
unresolved fetches, uploadCalls and followCalls count every network call
made to each provider, sentPrompts records each prompt sent to the
follow-up provider in order, and errors records every alert in order. -/
structure Session where
  app : AppState
  pendingUploads : Nat
  pendingFollows : Nat
  uploadCalls : Nat
  followCalls : Nat
  sentPrompts : List String
  errors : List SessionError
deriving DecidableEq

/-- Fresh session around the initial component state. -/
def initSession : Session :=
  { app := initApp, pendingUploads := 0, pendingFollows := 0,
    uploadCalls := 0, followCalls := 0, sentPrompts := [], errors := [] }

/-- Events that drive the session: typing a question, the two phases of
handleUpload, the two phases of askFollowUp, and handleFileChange with the
selected file (none when the file list is empty). -/
inductive Event where
  | setQuestion (q : String)
  | uploadStart
  | uploadResolve (r : UploadOutcome)
  | followStart
  | followResolve (r : FollowOutcome)
  | fileChange (f : Option String)
deriving DecidableEq

/-- One step of the session, parameterised by the ambient API key read from
the environment by askFollowUp. uploadStart is handleUpload up to the
fetch: it returns early only when no file is selected, else sets loading,
clears uploadComplete and issues the fetch. uploadResolve resumes after the
fetch: a caught error alerts and ends loading, a success body stores its
two fields as they are, clears the follow-up answer, sets uploadComplete
and ends loading. followStart is askFollowUp up to the fetch: it returns
early when the question or the stored text is falsy, sets loading, then
either throws on a falsy API key (caught: alert, loading ends false) or
sends the built prompt. followResolve resumes: a caught error alerts and
ends loading, a success installs the extracted reply and ends loading.
fileChange stores the selected file and resets text, analysis, followUp
and uploadComplete. -/
def step (apiKey : Option String) (s : Session) : Event → Session
  | Event.setQuestion q => { s with app := { s.app with question := q } }
  | Event.uploadStart =>
    match s.app.file with
    | none => s
    | some _ =>
      { s with
        app := { s.app with loading := true, uploadComplete := false },
        pendingUploads := s.pendingUploads + 1,
        uploadCalls := s.uploadCalls + 1 }
  | Event.uploadResolve r =>
    if s.pendingUploads = 0 then s else
      match r with
      | UploadOutcome.netFail m =>
        { s with
          app := { s.app with loading := false },
          pendingUploads := s.pendingUploads - 1,
          errors := s.errors ++ [SessionError.uploadNet m] }
      | UploadOutcome.httpError =>
        { s with
          app := { s.app with loading := false },
          pendingUploads := s.pendingUploads - 1,
          errors := s.errors ++ [SessionError.uploadHttp] }
      | UploadOutcome.success t a =>
        { s with
          app := { s.app with
                   text := t, analysis := a, followUp := "",
                   uploadComplete := true, loading := false },
          pendingUploads := s.pendingUploads - 1 }
  | Event.followStart =>
    if s.app.question = "" then s else
      match s.app.text with
      | none => s
      | some t =>
        if t = "" then s else
          match apiKey with
          | none =>
            { s with
              app := { s.app with loading := false },
              errors := s.errors ++ [SessionError.apiKeyMissing] }
          | some key =>
            if key = "" then
              { s with
                app := { s.app with loading := false },
                errors := s.errors ++ [SessionError.apiKeyMissing] }
            else
              { s with
                app := { s.app with loading := true },
                pendingFollows := s.pendingFollows + 1,
                followCalls := s.followCalls + 1,
                sentPrompts := s.sentPrompts ++ [buildPrompt t s.app.question] }
  | Event.followResolve r =>
    if s.pendingFollows = 0 then s else
      match r with
      | FollowOutcome.netFail m =>
        { s with
          app := { s.app with loading := false },
          pendingFollows := s.pendingFollows - 1,
          errors := s.errors ++ [SessionError.followNet m] }
      | FollowOutcome.httpError st b =>
        { s with
          app := { s.app with loading := false },
          pendingFollows := s.pendingFollows - 1,
          errors := s.errors ++ [SessionError.followHttp st b] }
      | FollowOutcome.success p =>
        { s with
          app := { s.app with followUp := extractReply p, loading := false },
          pendingFollows := s.pendingFollows - 1 }
  | Event.fileChange f =>
    { s with
      app := { s.app with
               file := f, text := some "", analysis := some "",
               followUp := "", uploadComplete := false } }

/-- Run a list of events from a session. -/
def run (apiKey : Option String) (s : Session) (evs : List Event) : Session :=
  evs.foldl (step apiKey) s

/-- The upload button of the JSX: it is disabled while no file is selected
or loading is set, and a click on a disabled button does nothing; otherwise
a click invokes handleUpload. -/
def clickUpload (apiKey : Option String) (s : Session) : Session :=
  if s.app.file = none ∨ s.app.loading then s else step apiKey s Event.uploadStart

/-- Session with a freshly selected document and nothing else done. -/
def docSelected : Session :=
  { initSession with app := { initApp with file := some "rx.pdf" } }

/-- C1: counterexample. Starting from a session with a selected file, two
uploadStart invocations issue two network calls to the analysis provider
and raise no error at all: the second invocation while the first is
unresolved is not rejected, and no OperationInProgress value exists in the
code. -/
theorem c1_counterexample :
    (step (some "key") (step (some "key") docSelected Event.uploadStart)
        Event.uploadStart).uploadCalls = 2 ∧
    (step (some "key") (step (some "key") docSelected Event.uploadStart)
        Event.uploadStart).errors = [] := by
  decide

/-- C1 amended: the only guard of handleUpload is the absence of a selected
file; a second invocation while a first upload is still unresolved is not
rejected with any error and issues a second network call. Only the JSX
prevents a duplicate: the upload button is disabled while loading, and a
click on the disabled button is a silent no-op with no error value. -/
theorem c1_second_upload_not_rejected (k : Option String) (s : Session) (f : String)
    (h1 : s.app.file = some f) (h2 : 0 < s.pendingUploads) :
    (step k s Event.uploadStart).uploadCalls = s.uploadCalls + 1 ∧
    (step k s Event.uploadStart).pendingUploads = s.pendingUploads + 1 ∧
    (step k s Event.uploadStart).errors = s.errors ∧
    (s.app.loading = true → clickUpload k s = s) := by
  refine ⟨by simp [step, h1], by simp [step, h1], by simp [step, h1], ?_⟩
  intro hl
  simp [clickUpload, hl]

/-- Session with a selected document and one upload already in flight. -/
def uploadFlight : Session :=
  { initSession with
    app := { initApp with file := some "rx.pdf", loading := true },
    pendingUploads := 1, uploadCalls := 1 }

/-- C1 witness: the amended statement at a concrete in-flight session. -/
theorem c1_witness :
    (step (some "key") uploadFlight Event.uploadStart).uploadCalls = uploadFlight.uploadCalls + 1 ∧
    (step (some "key") uploadFlight Event.uploadStart).pendingUploads = uploadFlight.pendingUploads + 1 ∧
    (step (some "key") uploadFlight Event.uploadStart).errors = uploadFlight.errors ∧
    (uploadFlight.app.loading = true → clickUpload (some "key") uploadFlight = uploadFlight) :=
  c1_second_upload_not_rejected (some "key") uploadFlight "rx.pdf" rfl (by decide)

/-- Events leading to an analyzed session: select a document, upload it, and
receive a success body with both fields present. -/
def analyzedEvents : List Event :=
  [Event.fileChange (some "rx.pdf"), Event.uploadStart,
   Event.uploadResolve (UploadOutcome.success
     (some "BP: take 1 tablet twice daily") (some "Antihypertensive"))]

/-- Events for C2: after analysis, ask a follow-up, select a new document
while the follow-up is in flight, then let the old answer arrive. -/
def c2Events : List Event :=
  analyzedEvents ++
  [Event.setQuestion "Can I take this with food?", Event.followStart,
   Event.fileChange (some "other.pdf"),
   Event.followResolve (FollowOutcome.success (some "Take it with food."))]

/-- C2: counterexample. The answer of a follow-up that was in flight when a
new document was selected is installed as the displayed answer anyway: at
the end of the trace the displayed follow-up answer is the stale reply even
though the selected file has already changed. -/
theorem c2_counterexample :
    (run (some "key") initSession c2Events).app.followUp = "Take it with food." ∧
    (run (some "key") initSession c2Events).app.file = some "other.pdf" := by
  decide

/-- C2 amended: there is no staleness check. If a follow-up is in flight and
a new document is selected before it resolves, the eventually arriving
nonempty answer is still installed as the displayed follow-up answer,
because the resolve step assigns it unconditionally. -/
theorem c2_stale_answer_installed (k : Option String) (s : Session)
    (f : Option String) (t : String)
    (h1 : 0 < s.pendingFollows) (h2 : ¬ t = "") :
    (step k (step k s (Event.fileChange f))
        (Event.followResolve (FollowOutcome.success (some t)))).app.followUp = t := by
  have hp : ¬ s.pendingFollows = 0 := Nat.pos_iff_ne_zero.mp h1
  simp [step, extractReply, hp, h2]

/-- Session with an analysis done and one follow-up in flight. -/
def followFlight : Session :=
  { initSession with
    app := { initApp with
             file := some "rx.pdf", text := some "BP: take 1 tablet twice daily",
             question := "Can I take this with food?",
             uploadComplete := true, loading := true },
    pendingFollows := 1, followCalls := 1, uploadCalls := 1,
    sentPrompts := [buildPrompt "BP: take 1 tablet twice daily" "Can I take this with food?"] }

/-- C2 witness: the amended statement at a concrete in-flight session. -/
theorem c2_witness :
    (step (some "key") (step (some "key") followFlight (Event.fileChange (some "other.pdf")))
        (Event.followResolve (FollowOutcome.success (some "Yes")))).app.followUp = "Yes" :=
  c2_stale_answer_installed (some "key") followFlight (some "other.pdf") "Yes"
    (by decide) (by decide)

/-- Analyzed session whose question field holds only whitespace. -/
def whitespaceQuestion : Session :=
  { initSession with
    app := { initApp with
             file := some "rx.pdf", text := some "BP: take 1 tablet twice daily",
             question := "   ", uploadComplete := true },
    uploadCalls := 1 }

/-- C3: counterexample. A whitespace-only question is not rejected:
askFollowUp tests only the truthiness of the raw question string, so with
stored text and an API key present the handler issues one network call to
the follow-up provider and raises no error; no InvalidQuestion value exists
in the code. -/
theorem c3_counterexample :
    (step (some "key") whitespaceQuestion Event.followStart).followCalls = 1 ∧
    (step (some "key") whitespaceQuestion Event.followStart).errors = [] := by
  decide

/-- C3 amended: an empty question makes askFollowUp return early silently,
with no error value, no state change and zero network calls; a
whitespace-only question passes the guard and issues a network call. The
JSX separately disables the ask button for whitespace-only input, again
silently. -/
theorem c3_question_guard (k : Option String) (s : Session) :
    (s.app.question = "" → step k s Event.followStart = s) ∧
    (∀ t key, s.app.question = "   " → s.app.text = some t → ¬ t = "" →
      k = some key → ¬ key = "" →
      (step k s Event.followStart).followCalls = s.followCalls + 1 ∧
      (step k s Event.followStart).errors = s.errors) := by
  constructor
  · intro h
    simp [step, h]
  · intro t key hq ht hts hk hks
    subst hk
    have hq2 : ¬ s.app.question = "" := by
      rw [hq]; decide
    constructor <;> simp [step, hq2, ht, hts, hks]

/-- Analyzed session whose question field is empty. -/
def emptyQuestion : Session :=
  { initSession with
    app := { initApp with
             file := some "rx.pdf", text := some "BP: take 1 tablet twice daily",
             uploadComplete := true },
    uploadCalls := 1 }

/-- C3 witness: both halves of the amended statement at concrete sessions. -/
theorem c3_witness :
    step (some "key") emptyQuestion Event.followStart = emptyQuestion ∧
    (step (some "key") whitespaceQuestion Event.followStart).followCalls
      = whitespaceQuestion.followCalls + 1 ∧
    (step (some "key") whitespaceQuestion Event.followStart).errors
      = whitespaceQuestion.errors :=
  ⟨(c3_question_guard (some "key") emptyQuestion).1 rfl,
   ((c3_question_guard (some "key") whitespaceQuestion).2
     "BP: take 1 tablet twice daily" "key" rfl rfl (by decide) rfl (by decide)).1,
   ((c3_question_guard (some "key") whitespaceQuestion).2
     "BP: take 1 tablet twice daily" "key" rfl rfl (by decide) rfl (by decide)).2⟩

/-- C4: selecting a new document resets the session. In the code both the
Analyzed and the Failed situations have loading false, because every
handler run ends by clearing loading; from any such state handleFileChange
stores the newly selected file and resets the extracted text and the
analysis to their initial empty values, clears the follow-up answer,
clears uploadComplete and leaves loading false: the Idle shape of the
component state. -/
theorem c4_new_document_resets (k : Option String) (s : Session) (f : Option String)
    (h : s.app.loading = false) :
    (step k s (Event.fileChange f)).app.text = some "" ∧
    (step k s (Event.fileChange f)).app.analysis = some "" ∧
    (step k s (Event.fileChange f)).app.followUp = "" ∧
    (step k s (Event.fileChange f)).app.uploadComplete = false ∧
    (step k s (Event.fileChange f)).app.loading = false ∧
    (step k s (Event.fileChange f)).app.file = f := by
  refine ⟨?_, ?_, ?_, ?_, ?_, ?_⟩ <;> simp [step, h]

/-- Analyzed session with a stored result and a displayed follow-up answer. -/
def analyzedSession : Session :=
  { initSession with
    app := { initApp with
             file := some "rx.pdf", text := some "BP: take 1 tablet twice daily",
             analysis := some "Antihypertensive", followUp := "Take it with food.",
             uploadComplete := true },
    uploadCalls := 1, followCalls := 1 }

/-- C4 witness: the reset at a concrete analyzed session. -/
theorem c4_witness :
    (step (some "key") analyzedSession (Event.fileChange (some "new.pdf"))).app.text = some "" ∧
    (step (some "key") analyzedSession (Event.fileChange (some "new.pdf"))).app.analysis = some "" ∧
    (step (some "key") analyzedSession (Event.fileChange (some "new.pdf"))).app.followUp = "" ∧
    (step (some "key") analyzedSession (Event.fileChange (some "new.pdf"))).app.uploadComplete = false ∧
    (step (some "key") analyzedSession (Event.fileChange (some "new.pdf"))).app.loading = false ∧
    (step (some "key") analyzedSession (Event.fileChange (some "new.pdf"))).app.file = some "new.pdf" :=
  c4_new_document_resets (some "key") analyzedSession (some "new.pdf") rfl

/-- Events for C5, first follow-up after the analysis. -/
def firstFollowEvents : List Event :=
  analyzedEvents ++
  [Event.setQuestion "Can I take this with food?", Event.followStart,
   Event.followResolve (FollowOutcome.success (some "Take with food."))]

/-- Events for C5, second distinct follow-up after the first one. -/
def secondFollowEvents : List Event :=
  firstFollowEvents ++
  [Event.setQuestion "What are the side effects?", Event.followStart,
   Event.followResolve (FollowOutcome.success (some "Dizziness."))]

/-- C5: counterexample. The component keeps one followUp string, not a list
of exchanges: after the first successful follow-up the displayed answer is
the first reply, and after a second distinct question it is only the second
reply; the first exchange has been overwritten rather than preserved in
order, and the question is never stored next to its answer. -/
theorem c5_counterexample :
    (run (some "key") initSession firstFollowEvents).app.followUp = "Take with food." ∧
    (run (some "key") initSession secondFollowEvents).app.followUp = "Dizziness." ∧
    ¬ (run (some "key") initSession secondFollowEvents).app.followUp = "Take with food." := by
  decide

/-- C5 amended: each successful follow-up whose extracted path text is
nonempty installs the provider text as the single displayed answer,
whatever answer was displayed before: the answer does equal the provider
returned text, but it replaces the previous exchange instead of appending
to a preserved sequence. -/
theorem c5_followup_overwrites (k : Option String) (s : Session) (t : String)
    (h1 : 0 < s.pendingFollows) (h2 : ¬ t = "") :
    (step k s (Event.followResolve (FollowOutcome.success (some t)))).app.followUp = t ∧
    (step k s (Event.followResolve (FollowOutcome.success (some t)))).app.loading = false := by
  have hp : ¬ s.pendingFollows = 0 := Nat.pos_iff_ne_zero.mp h1
  constructor <;> simp [step, extractReply, hp, h2]

/-- Session with a first answer displayed and a second follow-up in flight. -/
def secondFollowFlight : Session :=
  { initSession with
    app := { initApp with
             file := some "rx.pdf", text := some "BP: take 1 tablet twice daily",
             question := "What are the side effects?", followUp := "Take with food.",
             uploadComplete := true, loading := true },
    pendingFollows := 1, followCalls := 2, uploadCalls := 1 }

/-- C5 witness: the overwrite at a concrete session with a prior answer. -/
theorem c5_witness :
    (step (some "key") secondFollowFlight
        (Event.followResolve (FollowOutcome.success (some "Dizziness.")))).app.followUp
      = "Dizziness." ∧
    (step (some "key") secondFollowFlight
        (Event.followResolve (FollowOutcome.success (some "Dizziness.")))).app.loading
      = false :=
  c5_followup_overwrites (some "key") secondFollowFlight "Dizziness." (by decide) (by decide)

/-- Events for C6: upload resolves with a body missing the text field. -/
def missingFieldEvents : List Event :=
  [Event.fileChange (some "rx.pdf"), Event.uploadStart,
   Event.uploadResolve (UploadOutcome.success none (some "Antihypertensive"))]

/-- C6: counterexample. A success body whose text field is absent is stored
as a partial result: the stored text becomes undefined, the analysis field
is stored, uploadComplete is set, and no error of any kind is raised; no
MalformedProviderResponse value exists in the code. -/
theorem c6_counterexample :
    (run (some "key") initSession missingFieldEvents).app.text = none ∧
    (run (some "key") initSession missingFieldEvents).app.analysis = some "Antihypertensive" ∧
    (run (some "key") initSession missingFieldEvents).app.uploadComplete = true ∧
    (run (some "key") initSession missingFieldEvents).errors = [] := by
  decide

/-- C6 amended: handleUpload performs no validation of the response shape:
whatever the two optional fields of a success body hold is stored as is,
absent fields included, the follow-up answer is cleared, uploadComplete is
set, and no error is raised. -/
theorem c6_response_stored_unvalidated (k : Option String) (s : Session)
    (t a : Option String) (h : 0 < s.pendingUploads) :
    (step k s (Event.uploadResolve (UploadOutcome.success t a))).app.text = t ∧
    (step k s (Event.uploadResolve (UploadOutcome.success t a))).app.analysis = a ∧
    (step k s (Event.uploadResolve (UploadOutcome.success t a))).app.uploadComplete = true ∧
    (step k s (Event.uploadResolve (UploadOutcome.success t a))).app.followUp = "" ∧
    (step k s (Event.uploadResolve (UploadOutcome.success t a))).errors = s.errors := by
  have hp : ¬ s.pendingUploads = 0 := Nat.pos_iff_ne_zero.mp h
  refine ⟨?_, ?_, ?_, ?_, ?_⟩ <;> simp [step, hp]

/-- C6 witness: the unvalidated store at a concrete in-flight upload. -/
theorem c6_witness :
    (step (some "key") uploadFlight
        (Event.uploadResolve (UploadOutcome.success none none))).app.text = none ∧
    (step (some "key") uploadFlight
        (Event.uploadResolve (UploadOutcome.success none none))).app.analysis = none ∧
    (step (some "key") uploadFlight
        (Event.uploadResolve (UploadOutcome.success none none))).app.uploadComplete = true ∧
    (step (some "key") uploadFlight
        (Event.uploadResolve (UploadOutcome.success none none))).app.followUp = "" ∧
    (step (some "key") uploadFlight
        (Event.uploadResolve (UploadOutcome.success none none))).errors = uploadFlight.errors :=
  c6_response_stored_unvalidated (some "key") uploadFlight none none (by decide)

/-- C7: counterexample. When the nested candidate path of the follow-up body
is absent, the code substitutes the default answer string instead of
failing: the displayed answer becomes the default text and no error is
raised; no MalformedProviderResponse value exists in the code. -/
theorem c7_counterexample :
    (step (some "key") followFlight
        (Event.followResolve (FollowOutcome.success none))).app.followUp
      = "No response received" ∧
    (step (some "key") followFlight
        (Event.followResolve (FollowOutcome.success none))).errors = [] := by
  decide

/-- C7 amended: absence of the nested candidate path does not fail the ask
operation: the default answer string is installed as the displayed answer,
and the same default is installed when the path text is present but empty,
because the extraction uses a falsy-or default; no error is raised either
way. -/
theorem c7_default_answer_substituted (k : Option String) (s : Session)
    (h : 0 < s.pendingFollows) :
    (step k s (Event.followResolve (FollowOutcome.success none))).app.followUp
      = "No response received" ∧
    (step k s (Event.followResolve (FollowOutcome.success none))).errors = s.errors ∧
    (step k s (Event.followResolve (FollowOutcome.success (some "")))).app.followUp
      = "No response received" := by
  have hp : ¬ s.pendingFollows = 0 := Nat.pos_iff_ne_zero.mp h
  refine ⟨?_, ?_, ?_⟩ <;> simp [step, extractReply, hp]

/-- C7 witness: the default substitution at a concrete in-flight follow-up. -/
theorem c7_witness :
    (step (some "key") secondFollowFlight
        (Event.followResolve (FollowOutcome.success none))).app.followUp
      = "No response received" ∧
    (step (some "key") secondFollowFlight
        (Event.followResolve (FollowOutcome.success none))).errors = secondFollowFlight.errors ∧
    (step (some "key") secondFollowFlight
        (Event.followResolve (FollowOutcome.success (some "")))).app.followUp
      = "No response received" :=
  c7_default_answer_substituted (some "key") secondFollowFlight (by decide)

/-- Shape of a follow-up start that reaches its fetch: with a truthy
question, truthy stored text and a truthy API key, askFollowUp sets
loading, issues exactly one network call and records the built prompt,
raising no error. -/
theorem followStart_spec (k : Option String) (s : Session) (t key : String)
    (hq : ¬ s.app.question = "") (ht : s.app.text = some t) (hts : ¬ t = "")
    (hk : k = some key) (hks : ¬ key = "") :
    step k s Event.followStart =
      { s with
        app := { s.app with loading := true },
        pendingFollows := s.pendingFollows + 1,
        followCalls := s.followCalls + 1,
        sentPrompts := s.sentPrompts ++ [buildPrompt t s.app.question] } := by
  subst hk
  simp [step, hq, ht, hts, hks]

/-- Length of the built prompt: the fixed template contributes 85
characters, and the text and the question appear in full, so nothing is
ever truncated whatever their sizes. -/
theorem buildPrompt_length (t q : String) :
    (buildPrompt t q).length = t.length + q.length + 85 := by
  have h1 : ("The user uploaded this medicine content:\n" : String).length = 41 := rfl
  have h2 : ("\nNow they ask: " : String).length = 15 := rfl
  have h3 : ("\nGive a clear medical answer." : String).length = 29 := rfl
  simp only [buildPrompt, String.length_append, h1, h2, h3]
  omega

/-- Extracted text of ten million characters, larger than any plausible
input bound of the follow-up provider. -/
def hugeText : String := String.mk (List.replicate 10000000 (Char.ofNat 97))

/-- Length of the huge text. -/
theorem hugeText_length : hugeText.length = 10000000 := by
  show (String.mk (List.replicate 10000000 (Char.ofNat 97))).length = 10000000
  rw [show ∀ l : List Char, (String.mk l).length = l.length from fun l => rfl]
  exact List.length_replicate 10000000 _

/-- Huge text is truthy. -/
theorem hugeText_ne_empty : ¬ hugeText = "" := by
  intro h
  have hl := hugeText_length
  rw [h] at hl
  simp at hl

/-- Analyzed session whose stored text is the huge text. -/
def hugeSession : Session :=
  { initSession with
    app := { initApp with
             file := some "rx.pdf", text := some hugeText,
             question := "q", uploadComplete := true },
    uploadCalls := 1 }

/-- C8: counterexample. With a stored text of ten million characters the
combined prompt exceeds any maximum input size of the provider, yet
askFollowUp issues the network call carrying the full untruncated prompt
and raises no error: no PromptTooLarge value exists in the code. -/
theorem c8_counterexample :
    (step (some "key") hugeSession Event.followStart).followCalls = 1 ∧
    (step (some "key") hugeSession Event.followStart).errors = [] ∧
    (step (some "key") hugeSession Event.followStart).sentPrompts
      = [buildPrompt hugeText "q"] ∧
    10000000 ≤ (buildPrompt hugeText "q").length := by
  have h := followStart_spec (some "key") hugeSession hugeText "key"
    (by decide) rfl hugeText_ne_empty rfl (by decide)
  rw [h]
  refine ⟨rfl, rfl, rfl, ?_⟩
  have hl := buildPrompt_length hugeText "q"
  rw [hugeText_length] at hl
  omega

/-- C8 amended: the follow-up prompt embeds the stored extracted text and
the question verbatim and its length is exactly the sum of their lengths
plus the fixed template length, so nothing is truncated; but there is no
size check at all: for every text and question, however large, the call is
issued with the full prompt and no error, and no PromptTooLarge exists. -/
theorem c8_prompt_verbatim_unguarded (k : Option String) (s : Session) (t key : String)
    (hq : ¬ s.app.question = "") (ht : s.app.text = some t) (hts : ¬ t = "")
    (hk : k = some key) (hks : ¬ key = "") :
    (step k s Event.followStart).sentPrompts
      = s.sentPrompts ++ [buildPrompt t s.app.question] ∧
    (step k s Event.followStart).followCalls = s.followCalls + 1 ∧
    (step k s Event.followStart).errors = s.errors ∧
    (buildPrompt t s.app.question).length
      = t.length + (s.app.question).length + 85 := by
  rw [followStart_spec k s t key hq ht hts hk hks]
  exact ⟨rfl, rfl, rfl, buildPrompt_length t s.app.question⟩

/-- Analyzed session with a short stored text and a pending question. -/
def shortQuestionSession : Session :=
  { initSession with
    app := { initApp with
             file := some "rx.pdf", text := some "BP: take 1 tablet twice daily",
             question := "Can I take this with food?", uploadComplete := true },
    uploadCalls := 1 }

/-- C8 witness: the amended statement at a concrete analyzed session. -/
theorem c8_witness :
    (step (some "key") shortQuestionSession Event.followStart).sentPrompts
      = shortQuestionSession.sentPrompts
        ++ [buildPrompt "BP: take 1 tablet twice daily" shortQuestionSession.app.question] ∧
    (step (some "key") shortQuestionSession Event.followStart).followCalls
      = shortQuestionSession.followCalls + 1 ∧
    (step (some "key") shortQuestionSession Event.followStart).errors
      = shortQuestionSession.errors ∧
    (buildPrompt "BP: take 1 tablet twice daily" shortQuestionSession.app.question).length
      = ("BP: take 1 tablet twice daily" : String).length
        + (shortQuestionSession.app.question).length + 85 :=
  c8_prompt_verbatim_unguarded (some "key") shortQuestionSession
    "BP: take 1 tablet twice daily" "key" (by decide) rfl (by decide) rfl (by decide)

/-- C9: the document survives a provider failure. With a file selected,
handleUpload runs and the provider answers with a non-2xx status: the
resumed handler throws, the catch raises the upload alert (the code
counterpart of a provider error), the session ends not loading and not
uploadComplete, and the selected file is untouched by both phases. -/
theorem c9_document_preserved (k : Option String) (s : Session) (f : String)
    (h : s.app.file = some f) :
    (step k (step k s Event.uploadStart)
        (Event.uploadResolve UploadOutcome.httpError)).app.file = some f ∧
    (step k (step k s Event.uploadStart)
        (Event.uploadResolve UploadOutcome.httpError)).app.loading = false ∧
    (step k (step k s Event.uploadStart)
        (Event.uploadResolve UploadOutcome.httpError)).app.uploadComplete = false ∧
    (step k (step k s Event.uploadStart)
        (Event.uploadResolve UploadOutcome.httpError)).errors
      = s.errors ++ [SessionError.uploadHttp] := by
  refine ⟨?_, ?_, ?_, ?_⟩ <;> simp [step, h]

/-- C9 witness: the failure path at a concrete session with a selected
document. -/
theorem c9_witness :
    (step (some "key") (step (some "key") docSelected Event.uploadStart)
        (Event.uploadResolve UploadOutcome.httpError)).app.file = some "rx.pdf" ∧
    (step (some "key") (step (some "key") docSelected Event.uploadStart)
        (Event.uploadResolve UploadOutcome.httpError)).app.loading = false ∧
    (step (some "key") (step (some "key") docSelected Event.uploadStart)
        (Event.uploadResolve UploadOutcome.httpError)).app.uploadComplete = false ∧
    (step (some "key") (step (some "key") docSelected Event.uploadStart)
        (Event.uploadResolve UploadOutcome.httpError)).errors
      = docSelected.errors ++ [SessionError.uploadHttp] :=
  c9_document_preserved (some "key") docSelected "rx.pdf" rfl

/-- C10: the loading flag discipline. Every invocation that issues a network
call leaves loading true while the request is pending, and every resolve,
whatever its outcome, leaves loading false; the path where askFollowUp
throws for a missing API key also ends with loading false: no outcome
leaves the session permanently marked as in flight. -/
theorem c10_loading_flag (k : Option String) :
    (∀ s f, s.app.file = some f →
      (step k s Event.uploadStart).app.loading = true) ∧
    (∀ s r, 0 < s.pendingUploads →
      (step k s (Event.uploadResolve r)).app.loading = false) ∧
    (∀ s t key, ¬ s.app.question = "" → s.app.text = some t → ¬ t = "" →
      k = some key → ¬ key = "" →
      (step k s Event.followStart).app.loading = true) ∧
    (∀ s t, ¬ s.app.question = "" → s.app.text = some t → ¬ t = "" →
      k = none → (step k s Event.followStart).app.loading = false) ∧
    (∀ s r, 0 < s.pendingFollows →
      (step k s (Event.followResolve r)).app.loading = false) := by
  refine ⟨?_, ?_, ?_, ?_, ?_⟩
  · intro s f h
    simp [step, h]
  · intro s r h
    have hp : ¬ s.pendingUploads = 0 := Nat.pos_iff_ne_zero.mp h
    cases r <;> simp [step, hp]
  · intro s t key hq ht hts hk hks
    subst hk
    simp [step, hq, ht, hts, hks]
  · intro s t hq ht hts hk
    subst hk
    simp [step, hq, ht, hts]
  · intro s r h
    have hp : ¬ s.pendingFollows = 0 := Nat.pos_iff_ne_zero.mp h
    cases r <;> simp [step, hp]

/-- C10 witness: each conjunct of the flag discipline at a concrete input. -/
theorem c10_witness :
    (step (some "key") docSelected Event.uploadStart).app.loading = true ∧
    (step (some "key") uploadFlight (Event.uploadResolve UploadOutcome.httpError)).app.loading = false ∧
    (step (some "key") shortQuestionSession Event.followStart).app.loading = true ∧
    (step none shortQuestionSession Event.followStart).app.loading = false ∧
    (step (some "key") followFlight (Event.followResolve (FollowOutcome.success none))).app.loading = false :=
  ⟨(c10_loading_flag (some "key")).1 docSelected "rx.pdf" rfl,
   (c10_loading_flag (some "key")).2.1 uploadFlight UploadOutcome.httpError (by decide),
   (c10_loading_flag (some "key")).2.2.1 shortQuestionSession
     "BP: take 1 tablet twice daily" "key" (by decide) rfl (by decide) rfl (by decide),
   (c10_loading_flag none).2.2.2.1 shortQuestionSession
     "BP: take 1 tablet twice daily" (by decide) rfl (by decide) rfl,
   (c10_loading_flag (some "key")).2.2.2.2 followFlight (FollowOutcome.success none) (by decide)⟩

end MedHealth
